import Mathlib

/-!
Verification of the pool resolver/cache subsystem of the repository
(src/hooks/web3/usePools.ts) and of the theme provider (src/theme/index.tsx),
as a shallow embedding in Lean 4.

Conventions of the embedding:
* JavaScript objects become Lean structures; `undefined` becomes `Option.none`.
* `BigNumberish` / JSBI values are modelled as `Int` (numeric equality
  `JSBI.EQ` is `Int` equality).
* JavaScript reference identity (`===` between objects) is modelled by an
  allocation counter: every freshly constructed key object carries a fresh
  `refId`, and `===` compares `refId`s.
* Module-level mutable state (the static `PoolCache` arrays, the two React
  `useState` trackers) is threaded explicitly as state values.
-/

/-- A `Token` from @uniswap/sdk-core as used by the resolver: a chain id and
an address string. -/
structure Token where
  chainId : Nat
  address : String
deriving DecidableEq

/-- `Token.equals` from @uniswap/sdk-core: same chain id and same address.
(The SDK lower-cases both addresses before comparing; the embedding takes
addresses as already case-normalized strings, so the comparison is plain
string equality.) -/
def Token.tEquals (a b : Token) : Bool :=
  a.chainId == b.chainId && a.address == b.address

/-- `Token.sortsBefore` from @uniswap/sdk-core: lexicographic comparison of
the (case-normalized, see `Token.tEquals`) addresses.  (The SDK asserts
equal chain ids and distinct addresses before comparing; the hypotheses of
the theorems below establish those preconditions.) -/
def Token.sortsBefore (a b : Token) : Bool :=
  decide (a.address < b.address)

/-- A `Currency`: the resolver only uses its `wrapped` token. -/
structure Currency where
  wrapped : Token
deriving DecidableEq

/-- `PoolKeyStruct`: the five-field pool key (usePools.ts lines 31-37). -/
structure PoolKeyStruct where
  currency0 : String
  currency1 : String
  fee : Int
  tickSpacing : Int
  hooks : String
deriving DecidableEq

/-- A key object as allocated by `getPoolKeys`: the five fields plus the
allocation identity standing for the JavaScript object reference. -/
structure KeyInstance where
  refId : Nat
  fields : PoolKeyStruct
deriving DecidableEq

/-- The static mutable state behind `PoolCache.poolKeys`, plus the
allocation counter that models object identity. -/
structure KeyCacheState where
  nextRef : Nat
  poolKeys : List KeyInstance
deriving DecidableEq

def emptyKeyCache : KeyCacheState := ⟨0, []⟩

/-- `PoolCache.MAX_ENTRIES = 128` (usePools.ts line 15). -/
def MAX_ENTRIES : Nat := 128

namespace PoolCache

/-- `PoolCache.getPoolKeys` (usePools.ts lines 21-44), state-passing form.

Mirrors the source statement by statement:
1. `if (this.poolKeys.length > this.MAX_ENTRIES) poolKeys = poolKeys.slice(0, MAX_ENTRIES/2)`
2. construct `key` (a fresh object: fresh `refId`);
3. `poolKeys.find(currentKey => currentKey === key)` — `===` is reference
   identity, i.e. `refId` equality here;
4. on miss, `unshift` the new key and return it. -/
def getPoolKeys (tokenA tokenB : Token) (fee tickSpacing : Int) (hooks : String)
    (st : KeyCacheState) : KeyInstance × KeyCacheState :=
  let keys :=
    if st.poolKeys.length > MAX_ENTRIES then st.poolKeys.take (MAX_ENTRIES / 2)
    else st.poolKeys
  let key : KeyInstance :=
    ⟨st.nextRef, ⟨tokenA.address, tokenB.address, fee, tickSpacing, hooks⟩⟩
  match keys.find? (fun currentKey => currentKey.refId == key.refId) with
  | some found => (found, ⟨st.nextRef + 1, keys⟩)
  | none => (key, ⟨st.nextRef + 1, key :: keys⟩)

end PoolCache

def tokenOfAddr (a : String) : Token := ⟨1, a⟩

/-- One `getPoolKeys` call with a field tuple determined by `i` (the fee is
`i + 1`, so distinct `i` give pairwise-distinct field tuples). -/
def distinctKeyCall (i : Nat) (st : KeyCacheState) : KeyInstance × KeyCacheState :=
  PoolCache.getPoolKeys (tokenOfAddr "0xa") (tokenOfAddr "0xb")
    (Int.ofNat (i + 1)) 60 "0x0000000000000000000000000000000000000000" st

/-- The key-cache state after `n` insertions of pairwise-distinct keys into
an initially empty cache. -/
def insertDistinctKeys : Nat → KeyCacheState
  | 0 => emptyKeyCache
  | n + 1 => (distinctKeyCall n (insertDistinctKeys n)).2

/-- Helper: one `getPoolKeys` call never leaves more than 129 keys. -/
theorem getPoolKeys_length_le (tokenA tokenB : Token) (fee tickSpacing : Int)
    (hooks : String) (st : KeyCacheState) :
    (PoolCache.getPoolKeys tokenA tokenB fee tickSpacing hooks st).2.poolKeys.length ≤ 129 := by
  unfold PoolCache.getPoolKeys
  have htake := List.length_take_le (MAX_ENTRIES / 2) st.poolKeys
  simp only [MAX_ENTRIES] at htake ⊢
  split <;> split <;>
    first
      | (dsimp only; simp only [List.length_cons]; omega)
      | (dsimp only; omega)

set_option maxRecDepth 20000

/-- C1: the spec (and the claim) require `getPoolKeys` called twice with
field-for-field equal argument tuples to return the same stored key on the
second call, found by structural equality.  The source instead compares each
cached key to a freshly constructed object with `===` (reference identity),
which never matches, so the second call constructs and inserts a second key
object with equal fields.  Evaluated here at the concrete failing input:
two successive calls with tuple (0xa, 0xb, fee 1, tickSpacing 60, hooks 0x0)
on an initially empty cache yield distinct key instances with equal fields
and leave two entries in the cache instead of one. -/
theorem getPoolKeys_second_call_not_cached :
    (distinctKeyCall 0 (distinctKeyCall 0 emptyKeyCache).2).1
        ≠ (distinctKeyCall 0 emptyKeyCache).1 ∧
    (distinctKeyCall 0 (distinctKeyCall 0 emptyKeyCache).2).1.fields
        = (distinctKeyCall 0 emptyKeyCache).1.fields ∧
    (distinctKeyCall 0 (distinctKeyCall 0 emptyKeyCache).2).2.poolKeys.length = 2 := by
  decide

/-- C3, counterexample: inserting 129 pairwise-distinct keys into an
initially empty key cache leaves 129 entries in the sequence, not 64 as the
claim states — the eviction guard `length > MAX_ENTRIES` only fires on the
call after the length has already reached 129. -/
theorem insert129_leaves_129_not_64 :
    (insertDistinctKeys 129).poolKeys.length = 129 ∧
    (insertDistinctKeys 129).poolKeys.length ≠ 64 := by
  decide

/-- C3, amended: inserting 130 pairwise-distinct keys into an initially
empty cache leaves exactly 65 entries, and they are the 65 most recently
inserted (allocation ids 129 down to 65, most recent first): the 130th call
starts with 129 > 128 entries, truncates to the 64 most recent, then inserts.
In general the sequence length never exceeds 129 = cap + 1, so the size
never exceeds the cap by more than one insertion cycle. -/
theorem keyCache_eviction_amended :
    (insertDistinctKeys 130).poolKeys.length = 65 ∧
    (insertDistinctKeys 130).poolKeys.map (fun k => k.refId)
      = (List.range 65).map (fun i => 129 - i) ∧
    ∀ n, (insertDistinctKeys n).poolKeys.length ≤ 129 := by
  refine ⟨by decide, by decide, ?_⟩
  intro n
  cases n with
  | zero => simp [insertDistinctKeys, emptyKeyCache]
  | succ m => exact getPoolKeys_length_le _ _ _ _ _ _

/-- The `useState` tracking record for one read
(usePools.ts lines 100-106): decoded result (absent while loading or after
failure), loading flag, validity flag. -/
structure Tracker (α : Type) where
  result : Option α
  loading : Bool
  valid : Bool
deriving DecidableEq

/-- The decoded `getSlot0` result as the resolver consumes it: the
`sqrtPriceX96` component (absent models a decoded record without the field)
and the current tick. -/
structure Slot0Result where
  sqrtPriceX96 : Option Int
  tick : Int
deriving DecidableEq

/-- The `Pool` entity's fields, as read back by `PoolCache.getPool`'s
structural search (`token0`, `token1`, `fee`, `sqrtRatioX96`, `liquidity`,
`tickCurrent`) and by the constructor call. -/
structure Pool where
  token0 : Token
  token1 : Token
  fee : Int
  sqrtRatioX96 : Int
  liquidity : Int
  tickSpacing : Int
  tickCurrent : Int
deriving DecidableEq

/-- Lower bound of the representable sqrt-price range (v3-sdk
MIN_SQRT_ RATIO, getSqrtRatioAtTick(MIN_TICK)). -/
def minSqrtRatio : Int := 4295128739

/-- Upper bound of the representable sqrt-price range. -/
def maxSqrtRatio : Int := 1461446703485210103287273052203988822378723970342

/-- Modelled from the spec: the `Pool` entity constructor
(src/entities/pool, not present under src/).  Per spec §4.2 and §7(d),
construction "may itself validate invariants of price/liquidity/tick
consistency and fail with an invalid-pool error if they are inconsistent —
e.g., negative liquidity, price outside the representable fixed-point
range"; on success the pool is the immutable record of its arguments. -/
def Pool.construct (token0 token1 : Token)
    (fee sqrtPriceX96 liquidity tickSpacing tick : Int) : Except String Pool :=
  if liquidity < 0 then .error "NEGATIVE_LIQUIDITY"
  else if sqrtPriceX96 < minSqrtRatio || sqrtPriceX96 > maxSqrtRatio then
    .error "SQRT_RATIO_OUT_OF_RANGE"
  else .ok ⟨token0, token1, fee, sqrtPriceX96, liquidity, tickSpacing, tick⟩

namespace PoolCache

/-- `PoolCache.getPool` (usePools.ts lines 46-81), state-passing form over
the static `pools` array.  A JavaScript `throw` from the `Pool` constructor
becomes `Except.error`.  (The source compares `pool.token0 === tokenA` by
object reference; at the only call site the token objects come from the
same memoized tuple, where reference identity and structural equality
coincide, so tokens are compared structurally here.) -/
def getPool (st : List Pool) (tokenA tokenB : Token)
    (fee sqrtPriceX96 liquidity tickSpacing tick : Int) :
    Except String (Pool × List Pool) :=
  let pools := if st.length > MAX_ENTRIES then st.take (MAX_ENTRIES / 2) else st
  match pools.find? (fun pool =>
      pool.token0 == tokenA && pool.token1 == tokenB && pool.fee == fee &&
      pool.sqrtRatioX96 == sqrtPriceX96 && pool.liquidity == liquidity &&
      pool.tickCurrent == tick) with
  | some found => .ok (found, pools)
  | none =>
    match Pool.construct tokenA tokenB fee sqrtPriceX96 liquidity tickSpacing tick with
    | .error e => .error e
    | .ok pool => .ok (pool, pool :: pools)

end PoolCache

/-- The four-state availability enum `PoolState` (usePools.ts lines 84-89). -/
inductive PoolAvail where
  | LOADING
  | NOT_EXISTS
  | EXISTS
  | INVALID
deriving DecidableEq

/-- The normalized pool token tuple
`[Token, Token, BigNumberish, BigNumberish, string]`. -/
def PoolTokenTuple := Token × Token × Int × Int × String
deriving instance DecidableEq for PoolTokenTuple

/-- The final `useMemo` of `usePool` (usePools.ts lines 196-234): the pure
reduction of `(poolToken, slot0, liquidity, poolKey)` — together with the
shared pool cache it reads and may extend — to the `(PoolState, Pool|null)`
pair.  The `try/catch` around `PoolCache.getPool` becomes a match on
`Except`; `poolKey?.tickSpacing ?? 60` becomes `Option.map`/`getD`. -/
def resolve (poolToken : Option PoolTokenTuple)
    (slot0 : Option (Tracker Slot0Result)) (liquidity : Option (Tracker Int))
    (poolKey : Option PoolKeyStruct) (cache : List Pool) :
    (PoolAvail × Option Pool) × List Pool :=
  match poolToken with
  | none => ((.INVALID, none), cache)
  | some (token0, token1, fee, _, _) =>
    match slot0 with
    | none => ((.INVALID, none), cache)
    | some s =>
      match liquidity with
      | none => ((.INVALID, none), cache)
      | some l =>
        if !s.valid || !l.valid then ((.INVALID, none), cache)
        else if s.loading || l.loading then ((.LOADING, none), cache)
        else
          match s.result, l.result with
          | none, _ => ((.NOT_EXISTS, none), cache)
          | some _, none => ((.NOT_EXISTS, none), cache)
          | some slot0d, some liquidityd =>
            match slot0d.sqrtPriceX96 with
            | none => ((.NOT_EXISTS, none), cache)
            | some px =>
              if px == 0 then ((.NOT_EXISTS, none), cache)
              else
                match PoolCache.getPool cache token0 token1 fee px liquidityd
                    ((poolKey.map (fun k => k.tickSpacing)).getD 60) slot0d.tick with
                | .error _ => ((.NOT_EXISTS, none), cache)
                | .ok (pool, cache') => ((.EXISTS, some pool), cache')

/-- C10: `usePool`'s reduction returns a non-null pool exactly when the
availability is `EXISTS`; every `LOADING`, `NOT_EXISTS` or `INVALID` path
pairs with a null pool. -/
theorem resolve_exists_iff_pool_some (pt : Option PoolTokenTuple)
    (s : Option (Tracker Slot0Result)) (l : Option (Tracker Int))
    (pk : Option PoolKeyStruct) (cache : List Pool) :
    (resolve pt s l pk cache).1.1 = PoolAvail.EXISTS
      ↔ (resolve pt s l pk cache).1.2 ≠ none := by
  unfold resolve
  repeat' split
  all_goals simp

/-- C4: with the pool token tuple present, both trackers present, valid and
not loading, and both reads decoded, an absent or numerically zero
`sqrtPriceX96` makes the resolver return `NOT_EXISTS` with a null pool. -/
theorem resolve_zero_or_absent_price_not_exists (pt : PoolTokenTuple)
    (s0r : Slot0Result) (liq : Int) (pk : Option PoolKeyStruct) (cache : List Pool)
    (hpx : s0r.sqrtPriceX96 = none ∨ s0r.sqrtPriceX96 = some 0) :
    resolve (some pt) (some ⟨some s0r, false, true⟩) (some ⟨some liq, false, true⟩) pk cache
      = ((PoolAvail.NOT_EXISTS, none), cache) := by
  obtain ⟨t0, t1, fee, ts, hk⟩ := pt
  rcases hpx with h | h <;> simp [resolve, h]

/-- Witness for C4 at a concrete input: price decoded as zero. -/
theorem resolve_zero_or_absent_price_not_exists_witness :
    resolve (some (tokenOfAddr "0xa", tokenOfAddr "0xb", 3000, 60, "0x0"))
      (some ⟨some ⟨some 0, 5⟩, false, true⟩) (some ⟨some 77, false, true⟩) none []
      = ((PoolAvail.NOT_EXISTS, none), []) :=
  resolve_zero_or_absent_price_not_exists _ ⟨some 0, 5⟩ 77 none [] (Or.inr rfl)

/-- The tracker value written by the `catch` handler of the joined reads
(usePools.ts lines 190-193): both trackers are set to
`result: undefined, loading: false, valid: false`, regardless of which of
the two reads failed. -/
def failedReadTracker {α : Type} : Tracker α := ⟨none, false, false⟩

/-- C5: after either read fails, the catch handler leaves both trackers in
`failedReadTracker`, and the resolver reduces that tracker pair to
`INVALID` with a null pool — never to a partial result — for every pool
token tuple, pool key and cache state. -/
theorem resolve_failed_reads_invalid (pt : Option PoolTokenTuple)
    (pk : Option PoolKeyStruct) (cache : List Pool) :
    resolve pt (some failedReadTracker) (some failedReadTracker) pk cache
      = ((PoolAvail.INVALID, none), cache) := by
  rcases pt with _ | ⟨t0, t1, fee, ts, hk⟩ <;> simp [resolve, failedReadTracker]

/-- C8: when the pool construction inside the `try` block fails (the
modelled `Pool` constructor returns an error), the exception is caught
locally and the resolver returns `NOT_EXISTS` with a null pool; no error
escapes the reduction, which is a total function into the four-state
availability enum paired with a nullable pool. -/
theorem resolve_construction_failure_not_exists
    (t0 t1 : Token) (fee ts : Int) (hk : String) (px liq tick : Int)
    (pk : Option PoolKeyStruct) (cache : List Pool) (e : String)
    (hpx : px ≠ 0)
    (hget : PoolCache.getPool cache t0 t1 fee px liq
        ((pk.map (fun k => k.tickSpacing)).getD 60) tick = .error e) :
    resolve (some (t0, t1, fee, ts, hk))
      (some ⟨some ⟨some px, tick⟩, false, true⟩)
      (some ⟨some liq, false, true⟩) pk cache
      = ((PoolAvail.NOT_EXISTS, none), cache) := by
  simp [resolve, hget, hpx]

/-- Witness for C8 at a concrete input: a negative decoded liquidity makes
the modelled constructor fail, and the resolver degrades to `NOT_EXISTS`. -/
theorem resolve_construction_failure_not_exists_witness :
    resolve (some (tokenOfAddr "0xa", tokenOfAddr "0xb", 3000, 60, "0x0"))
      (some ⟨some ⟨some 5000000000, 5⟩, false, true⟩)
      (some ⟨some (-1), false, true⟩) none []
      = ((PoolAvail.NOT_EXISTS, none), []) :=
  resolve_construction_failure_not_exists (tokenOfAddr "0xa") (tokenOfAddr "0xb")
    3000 60 "0x0" 5000000000 (-1) 5 none [] "NEGATIVE_LIQUIDITY" (by decide) rfl

/-- The reactive state the `useEffect` of `usePool` (usePools.ts lines
142-194) manipulates: the two read trackers, plus a generation counter
identifying the most recently issued request (each effect run for a new
pool key issues one fresh pair of reads; the counter gives those pairs an
identity, mirroring request order in the single-threaded, cooperative
scheduling model). -/
structure EffectState where
  gen : Nat
  slot0 : Option (Tracker Slot0Result)
  liquidity : Option (Tracker Int)
deriving DecidableEq

/-- The events of the effect protocol.
* `newRequest` — the effect body re-runs because the pool key changed
  (lines 158-168): both trackers are reset to
  `result: undefined, loading: true, valid: true` and a fresh pair of reads
  (the next generation) is issued.
* `complete g s0 liq` — the `then` callback of generation `g`'s
  `Promise.all` resolves with decoded results (lines 171-189).
* `fail g` — the `catch` callback of generation `g`'s pair (lines 190-193). -/
inductive EffectEvent where
  | newRequest
  | complete (gen : Nat) (s0 : Slot0Result) (liq : Int)
  | fail (gen : Nat)
deriving DecidableEq

/-- One event step, exactly as the source handlers write the two
`useState` trackers.  The `then`/`catch` handlers store their results
unconditionally: the source contains no comparison of the completing
generation against the current one (no cleanup function, no generation
check), so the `gen` carried by `complete`/`fail` is ignored here just as
the source ignores which request a completing promise belongs to. -/
def effectStep (st : EffectState) : EffectEvent → EffectState
  | .newRequest => ⟨st.gen + 1, some ⟨none, true, true⟩, some ⟨none, true, true⟩⟩
  | .complete _ s0 liq => ⟨st.gen, some ⟨some s0, false, true⟩, some ⟨some liq, false, true⟩⟩
  | .fail _ => ⟨st.gen, some ⟨none, false, false⟩, some ⟨none, false, false⟩⟩

/-- Run a sequence of effect events from a state. -/
def runEffect (st : EffectState) (evs : List EffectEvent) : EffectState :=
  evs.foldl effectStep st

/-- Before any effect runs, no request has been issued and both trackers
are `undefined`. -/
def initialEffectState : EffectState := ⟨0, none, none⟩

def staleSlot0 : Slot0Result := ⟨some 111, 5⟩

def freshSlot0 : Slot0Result := ⟨some 222, 7⟩

/-- The interleaving of two overlapping requests in which the older
request's reads resolve last: request 1 is issued, the key changes and
request 2 is issued, request 2's reads complete (fresh results), then
request 1's reads complete (stale results). -/
def staleOverwriteTrace : List EffectEvent :=
  [.newRequest, .newRequest,
   .complete 2 freshSlot0 777,
   .complete 1 staleSlot0 333]

/-- C2: the claimed guard against stale writes does not exist in the
source.  In the concrete overlapping-request interleaving
`staleOverwriteTrace`, the current request is generation 2 and its reads
completed with `freshSlot0`/777, yet the final tracker state holds the
superseded generation 1's `staleSlot0`/333: the older request's late
completion overwrote the newer request's state (last-writer-wins), because
the `then` handler stores results without any generation check. -/
theorem effect_stale_completion_overwrites :
    (runEffect initialEffectState staleOverwriteTrace).gen = 2 ∧
    (runEffect initialEffectState staleOverwriteTrace).slot0
      = some ⟨some staleSlot0, false, true⟩ ∧
    (runEffect initialEffectState staleOverwriteTrace).liquidity
      = some ⟨some 333, false, true⟩ ∧
    staleSlot0 ≠ freshSlot0 := by decide

/-- The `poolToken` `useMemo` of `usePool` (usePools.ts lines 108-122):
JavaScript truthiness of the guards is modelled as in the source
(`!chainId` rejects 0 and `undefined`; the conjunction
`currencyA && currencyB && feeAmount && tickSpacing && hooks` rejects any
absent value, a zero numeric and an empty hooks string). -/
def poolTokenMemo (chainId : Option Nat) (currencyA currencyB : Option Currency)
    (feeAmount tickSpacing : Option Int) (hooks : Option String) :
    Option PoolTokenTuple :=
  match chainId with
  | none => none
  | some c =>
    if c == 0 then none
    else
      match currencyA, currencyB, feeAmount, tickSpacing, hooks with
      | some ca, some cb, some fee, some ts, some hk =>
        if fee == 0 || ts == 0 || hk == "" then none
        else
          let tokenA := ca.wrapped
          let tokenB := cb.wrapped
          if tokenA.tEquals tokenB then none
          else if tokenA.sortsBefore tokenB then some (tokenA, tokenB, fee, ts, hk)
          else some (tokenB, tokenA, fee, ts, hk)
      | _, _, _, _, _ => none

/-- The `poolKey` `useMemo` (usePools.ts lines 124-134): the five-field key
built from the normalized tuple when it is present. -/
def poolKeyMemo (poolToken : Option PoolTokenTuple) : Option PoolKeyStruct :=
  poolToken.map (fun pt =>
    ⟨pt.1.address, pt.2.1.address, pt.2.2.1, pt.2.2.2.1, pt.2.2.2.2⟩)

/-- The lookup identifier `toId` (usePools.ts lines 237-254): the source
ABI-encodes the five key fields with a fixed order-sensitive encoding and
hashes with keccak256, both from the external ethers library.  The claims
use only that the digest is a pure, deterministic, order-sensitive function
of the five fields, so the digest is modelled as their tagged
concatenation. -/
def toId (poolKey : Option PoolKeyStruct) : Option String :=
  poolKey.map (fun k =>
    k.currency0 ++ "|" ++ k.currency1 ++ "|" ++ toString k.fee ++ "|"
      ++ toString k.tickSpacing ++ "|" ++ k.hooks)

/-- C6: normalization is commutative.  For a present chain id and present
fee/tickSpacing/hooks, and two currencies whose wrapped tokens have
distinct addresses, swapping the two currency arguments
leaves the normalized tuple, the derived `PoolKeyStruct` and the derived
lookup identifier unchanged: the pair is canonically ordered with the
lower address first and fee, tick spacing and hooks pass through. -/
theorem poolToken_normalization_comm (c : Nat) (ca cb : Currency)
    (fee ts : Int) (hk : String)
    (hne : ca.wrapped.address ≠ cb.wrapped.address) :
    poolTokenMemo (some c) (some ca) (some cb) (some fee) (some ts) (some hk)
      = poolTokenMemo (some c) (some cb) (some ca) (some fee) (some ts) (some hk) ∧
    poolKeyMemo (poolTokenMemo (some c) (some ca) (some cb) (some fee) (some ts) (some hk))
      = poolKeyMemo (poolTokenMemo (some c) (some cb) (some ca) (some fee) (some ts) (some hk)) ∧
    toId (poolKeyMemo (poolTokenMemo (some c) (some ca) (some cb) (some fee) (some ts) (some hk)))
      = toId (poolKeyMemo (poolTokenMemo (some c) (some cb) (some ca) (some fee) (some ts) (some hk))) := by
  have hab : ca.wrapped.tEquals cb.wrapped = false := by
    simp [Token.tEquals, hne]
  have hba : cb.wrapped.tEquals ca.wrapped = false := by
    simp [Token.tEquals, Ne.symm hne]
  have hmain :
      poolTokenMemo (some c) (some ca) (some cb) (some fee) (some ts) (some hk)
        = poolTokenMemo (some c) (some cb) (some ca) (some fee) (some ts) (some hk) := by
    rcases lt_trichotomy ca.wrapped.address cb.wrapped.address with h | h | h
    · have h1 : ca.wrapped.sortsBefore cb.wrapped = true := by
        simp [Token.sortsBefore, h]
      have h2 : cb.wrapped.sortsBefore ca.wrapped = false := by
        simp [Token.sortsBefore, not_lt.mpr (le_of_lt h)]
      simp [poolTokenMemo, hab, hba, h1, h2]
    · exact absurd h hne
    · have h1 : ca.wrapped.sortsBefore cb.wrapped = false := by
        simp [Token.sortsBefore, not_lt.mpr (le_of_lt h)]
      have h2 : cb.wrapped.sortsBefore ca.wrapped = true := by
        simp [Token.sortsBefore, h]
      simp [poolTokenMemo, hab, hba, h1, h2]
  exact ⟨hmain, by rw [hmain], by rw [hmain]⟩

/-- Witness for C6 at a concrete input: tokens at addresses 0xa and 0xb. -/
theorem poolToken_normalization_comm_witness :
    (Currency.wrapped ⟨⟨1, "0xa"⟩⟩).address
        ≠ (Currency.wrapped ⟨⟨1, "0xb"⟩⟩).address ∧
    (poolTokenMemo (some 1) (some ⟨⟨1, "0xa"⟩⟩) (some ⟨⟨1, "0xb"⟩⟩)
        (some 3000) (some 60) (some "0x0")
      = poolTokenMemo (some 1) (some ⟨⟨1, "0xb"⟩⟩) (some ⟨⟨1, "0xa"⟩⟩)
        (some 3000) (some 60) (some "0x0") ∧
     poolKeyMemo (poolTokenMemo (some 1) (some ⟨⟨1, "0xa"⟩⟩) (some ⟨⟨1, "0xb"⟩⟩)
        (some 3000) (some 60) (some "0x0"))
      = poolKeyMemo (poolTokenMemo (some 1) (some ⟨⟨1, "0xb"⟩⟩) (some ⟨⟨1, "0xa"⟩⟩)
        (some 3000) (some 60) (some "0x0")) ∧
     toId (poolKeyMemo (poolTokenMemo (some 1) (some ⟨⟨1, "0xa"⟩⟩) (some ⟨⟨1, "0xb"⟩⟩)
        (some 3000) (some 60) (some "0x0")))
      = toId (poolKeyMemo (poolTokenMemo (some 1) (some ⟨⟨1, "0xb"⟩⟩) (some ⟨⟨1, "0xa"⟩⟩)
        (some 3000) (some 60) (some "0x0")))) :=
  ⟨by decide,
   poolToken_normalization_comm 1 ⟨⟨1, "0xa"⟩⟩ ⟨⟨1, "0xb"⟩⟩ 3000 60 "0x0" (by decide)⟩

/-- C7: degenerate requests produce no key and are treated as `INVALID`,
not as an error: when the two currencies unwrap to equal tokens, or when
either currency, the fee, the tick spacing or the hooks value is missing,
the normalizer yields `none`, and the resolver consequently returns
`INVALID` with a null pool for every tracker and cache state. -/
theorem poolToken_degenerate_inputs_invalid
    (c : Option Nat) (ca cb : Option Currency) (f ts : Option Int) (hk : Option String)
    (s : Option (Tracker Slot0Result)) (l : Option (Tracker Int))
    (pk : Option PoolKeyStruct) (cache : List Pool)
    (h : (∃ a b, ca = some a ∧ cb = some b ∧ a.wrapped.tEquals b.wrapped = true)
         ∨ ca = none ∨ cb = none ∨ f = none ∨ ts = none ∨ hk = none) :
    poolTokenMemo c ca cb f ts hk = none ∧
    (resolve (poolTokenMemo c ca cb f ts hk) s l pk cache).1
      = (PoolAvail.INVALID, none) := by
  have hnone : poolTokenMemo c ca cb f ts hk = none := by
    rcases h with ⟨a, b, rfl, rfl, heq⟩ | rfl | rfl | rfl | rfl | rfl
    · rcases c with _ | c <;> rcases f with _ | f <;> rcases ts with _ | ts <;>
        rcases hk with _ | hk <;> simp [poolTokenMemo, heq]
    · rcases c with _ | c <;> rcases cb with _ | cb <;> rcases f with _ | f <;>
        rcases ts with _ | ts <;> rcases hk with _ | hk <;> simp [poolTokenMemo]
    · rcases c with _ | c <;> rcases ca with _ | ca <;> rcases f with _ | f <;>
        rcases ts with _ | ts <;> rcases hk with _ | hk <;> simp [poolTokenMemo]
    · rcases c with _ | c <;> rcases ca with _ | ca <;> rcases cb with _ | cb <;>
        rcases ts with _ | ts <;> rcases hk with _ | hk <;> simp [poolTokenMemo]
    · rcases c with _ | c <;> rcases ca with _ | ca <;> rcases cb with _ | cb <;>
        rcases f with _ | f <;> rcases hk with _ | hk <;> simp [poolTokenMemo]
    · rcases c with _ | c <;> rcases ca with _ | ca <;> rcases cb with _ | cb <;>
        rcases f with _ | f <;> rcases ts with _ | ts <;> simp [poolTokenMemo]
  refine ⟨hnone, ?_⟩
  rw [hnone]
  simp [resolve]

/-- Witness for C7 at a concrete input: the two currencies wrap tokens at
the same token, so they unwrap to equal tokens. -/
theorem poolToken_degenerate_inputs_invalid_witness :
    ((∃ a b, (some (⟨⟨1, "0xa"⟩⟩ : Currency) = some a)
        ∧ (some (⟨⟨1, "0xa"⟩⟩ : Currency) = some b)
        ∧ a.wrapped.tEquals b.wrapped = true)
      ∨ (some (⟨⟨1, "0xa"⟩⟩ : Currency) = none)
      ∨ (some (⟨⟨1, "0xa"⟩⟩ : Currency) = none)
      ∨ (some (3000 : Int) = none) ∨ (some (60 : Int) = none)
      ∨ (some "0x0" = none)) ∧
    (poolTokenMemo (some 1) (some ⟨⟨1, "0xa"⟩⟩) (some ⟨⟨1, "0xa"⟩⟩)
        (some 3000) (some 60) (some "0x0") = none ∧
     (resolve (poolTokenMemo (some 1) (some ⟨⟨1, "0xa"⟩⟩) (some ⟨⟨1, "0xa"⟩⟩)
        (some 3000) (some 60) (some "0x0")) none none none []).1
      = (PoolAvail.INVALID, none)) :=
  ⟨Or.inl ⟨⟨⟨1, "0xa"⟩⟩, ⟨⟨1, "0xa"⟩⟩, rfl, rfl, by decide⟩,
   poolToken_degenerate_inputs_invalid (some 1) (some ⟨⟨1, "0xa"⟩⟩)
     (some ⟨⟨1, "0xa"⟩⟩) (some 3000) (some 60) (some "0x0") none none none []
     (Or.inl ⟨⟨⟨1, "0xa"⟩⟩, ⟨⟨1, "0xa"⟩⟩, rfl, rfl, by decide⟩)⟩

/-- `BorderRadius` sizes (theme/index.tsx): four numeric steps. -/
structure BorderRadius where
  xsmall : Rat
  small : Rat
  medium : Rat
  large : Rat
deriving DecidableEq

/-- `Gaps` grid-gap values (theme/index.tsx). -/
structure Gaps where
  xs : String
  sm : String
  md : String
  lg : String
  xl : String
deriving DecidableEq

/-- The layered theme object: the seven color fields of `Colors` at top
level (as `defaultTheme` spreads `lightTheme` there), plus the
`borderRadius` and `grids` sections.  Fields are optional, `none` modelling
an absent/undefined binding. -/
structure Theme where
  primary : Option String
  secondary : Option String
  tertiary : Option String
  background : Option String
  background2 : Option String
  text : Option String
  textInverted : Option String
  borderRadius : Option BorderRadius
  grids : Option Gaps
deriving DecidableEq

/-- `defaultBorderRadius` (theme/index.tsx lines 34-39). -/
def defaultBorderRadius : BorderRadius := ⟨1/2, 3/4, 1, 3/2⟩

/-- `gapValues` (theme/index.tsx lines 41-47). -/
def gapValues : Gaps := ⟨"4px", "8px", "12px", "24px", "32px"⟩

/-- `defaultTheme` (theme/index.tsx lines 49-53):
`{ grids: gapValues, ...lightTheme, borderRadius: defaultBorderRadius }`. -/
def defaultThemeObj : Theme :=
  ⟨some "#FFFFFF", some "#2ecc71", some "#f1c40f", some "#12131A",
   some "#323232", some "#34495e", some "#ffffff",
   some defaultBorderRadius, some gapValues⟩

/-- JavaScript object spread `{...a, ...b}` over theme records: for each
field, `b`'s binding wins whenever `b` carries one, else `a`'s is kept. -/
def spreadMerge (a b : Theme) : Theme :=
  ⟨b.primary.getD <$> a.primary |>.orElse fun _ => b.primary,
   b.secondary.getD <$> a.secondary |>.orElse fun _ => b.secondary,
   b.tertiary.getD <$> a.tertiary |>.orElse fun _ => b.tertiary,
   b.background.getD <$> a.background |>.orElse fun _ => b.background,
   b.background2.getD <$> a.background2 |>.orElse fun _ => b.background2,
   b.text.getD <$> a.text |>.orElse fun _ => b.text,
   b.textInverted.getD <$> a.textInverted |>.orElse fun _ => b.textInverted,
   b.borderRadius.getD <$> a.borderRadius |>.orElse fun _ => b.borderRadius,
   b.grids.getD <$> a.grids |>.orElse fun _ => b.grids⟩

/-- `toDefaultTheme` (theme/index.tsx lines 72-80): keeps every field of the
merged theme and replaces an absent (falsy) `borderRadius` or `grids`
section with the defined defaults. -/
def toDefaultTheme (theme : Theme) : Theme :=
  ⟨theme.primary, theme.secondary, theme.tertiary, theme.background,
   theme.background2, theme.text, theme.textInverted,
   some (theme.borderRadius.getD defaultBorderRadius),
   some (theme.grids.getD gapValues)⟩

/-- The `Provider`'s merged value (theme/index.tsx lines 57-64):
`toDefaultTheme({ ...theme, ...themeCtx })`.  The inherited context theme
`themeCtx` is spread AFTER the `theme` prop, so every binding the context
carries wins over the prop's. -/
def providerValue (theme themeCtx : Theme) : Theme :=
  toDefaultTheme (spreadMerge theme themeCtx)

/-- The initial context value (theme/index.tsx line 55):
`toDefaultTheme(defaultTheme)`, a complete theme. -/
def initialThemeContext : Theme := toDefaultTheme defaultThemeObj

/-- A child theme prop that tries to override the primary color. -/
def childThemeProp : Theme :=
  ⟨some "#000000", none, none, none, none, none, none, none, none⟩

/-- C9: the claim says the child (the `theme` prop) overrides the parent
(the inherited context theme) field-by-field.  The source spreads the
context AFTER the prop (`{...theme, ...themeCtx}`), so the parent wins:
rendering `childThemeProp` (primary `#000000`) under the initial context
(primary `#FFFFFF`) yields primary `#FFFFFF` — the prop binding is
discarded, making the `theme` prop inert under any complete context.
The fallback half of the claim does hold: `toDefaultTheme` replaces a
missing `borderRadius` section with `defaultBorderRadius` and a missing
`grids` section with `gapValues`. -/
theorem provider_parent_overrides_child :
    (providerValue childThemeProp initialThemeContext).primary = some "#FFFFFF" ∧
    (providerValue childThemeProp initialThemeContext).primary ≠ some "#000000" ∧
    (toDefaultTheme childThemeProp).borderRadius = some defaultBorderRadius ∧
    (toDefaultTheme childThemeProp).grids = some gapValues := by
  refine ⟨rfl, by decide, rfl, rfl⟩
